import Mathlib

/-!
# Verification of the Weather plugin (src/weather.py)

A shallow embedding of the message-triggered weather lookup handler.
Python values are modelled by the inductive `Value` (JSON-like data, with
numbers split into `int` and `num`, the latter an exact rational standing
for a Python float).  Fallible Python code is modelled in
`Except ExnKind`, with `ExnKind` the exception classes relevant to the
program; `try/except (A, B)` becomes `pyCatch [A, B] fallback`.

The two outbound HTTP calls are modelled by an oracle value
`HttpOutcome` per call: either a transport-level error (aiohttp
`ClientError` / `OSError`) or a response carrying an HTTP status and a
JSON body (whose decoding may itself fail with `ClientError` or
`ValueError`, the classes raised by `response.json()`).

The regular expressions `MENTION_PATTERN = @\w+\s*` and
`LOCATION_PATTERN` are compiled by hand into executable backtracking
matchers (`mentionSub`, `locationSearch`) that follow the Python `re`
semantics: leftmost search, alternation tried left to right, greedy
quantifiers with backtracking, `sub` continuing after the end of each
match.  Python's Unicode `\w` and `\s` are modelled on the character
ranges relevant to this plugin (ASCII alphanumerics and underscore plus
the CJK unified ideograph block used by `LOCATION_PATTERN`; ASCII
whitespace), and Python float `repr`/rounding is modelled on exact
rationals (`round` and `format .1f` use round-half-to-even, as CPython
does).

Helpers that `weather.py` inherits from `PluginBase` (a file not part of
this repository's sources) are modelled from the spec and marked as such
in their doc comments.
-/

/-- Python exception classes that occur in `weather.py`:
`ValueError`, `KeyError`, `TypeError`, `IndexError`, `AttributeError`,
`aiohttp.ClientError`, `OSError`. -/
inductive ExnKind where
  | valueError
  | keyError
  | typeError
  | indexError
  | attributeError
  | clientError
  | osError
deriving DecidableEq, BEq, Repr, Fintype

/-- Errors an `aiohttp` `session.get` itself can raise (transport level):
`aiohttp.ClientError` or `OSError`. -/
inductive TransErr where
  | clientError
  | osError
deriving DecidableEq, Repr

/-- Errors `response.json()` can raise: `aiohttp.ContentTypeError`
(a `ClientError`) or `json.JSONDecodeError` (a `ValueError`). -/
inductive JsonErr where
  | clientError
  | valueError
deriving DecidableEq, Repr

def TransErr.toExn : TransErr → ExnKind
  | .clientError => .clientError
  | .osError => .osError

def JsonErr.toExn : JsonErr → ExnKind
  | .clientError => .clientError
  | .valueError => .valueError

/-- Python/JSON values as they flow through the plugin.  `int` and `num`
model Python `int` and `float` (the latter as an exact rational). -/
inductive Value where
  | none
  | bool (b : Bool)
  | int (n : ℤ)
  | num (q : ℚ)
  | str (s : String)
  | list (xs : List Value)
  | dict (kvs : List (String × Value))
deriving Repr

mutual

/-- Structural equality on `Value` (Python `==` as used for the string
membership tests in this plugin). -/
def valueBeq : Value → Value → Bool
  | .none, .none => true
  | .bool a, .bool b => a = b
  | .int a, .int b => a = b
  | .num a, .num b => a = b
  | .str a, .str b => a = b
  | .list a, .list b => valueListBeq a b
  | .dict a, .dict b => valueKvBeq a b
  | _, _ => false

def valueListBeq : List Value → List Value → Bool
  | [], [] => true
  | a :: as, b :: bs => valueBeq a b && valueListBeq as bs
  | _, _ => false

def valueKvBeq : List (String × Value) → List (String × Value) → Bool
  | [], [] => true
  | (k, a) :: as, (k', b) :: bs => k = k' && valueBeq a b && valueKvBeq as bs
  | _, _ => false
end

instance : BEq Value := ⟨valueBeq⟩

/-- The reply dict `{handled, plugin_name, response}` built by the
handler. -/
structure Reply where
  handled : Bool
  plugin_name : String
  response : String
deriving DecidableEq, Repr

/-- `try: x except (k ∈ ks): return fb` — absorb the listed exception
kinds into the fallback value, let every other exception propagate. -/
def pyCatch (ks : List ExnKind) (fb : α) : Except ExnKind α → Except ExnKind α
  | .error e => if ks.contains e then .ok fb else .error e
  | .ok a => .ok a

/-- First binding of a key in an association list (Python dict lookup). -/
def lookupKv (kvs : List (String × Value)) (k : String) : Option Value :=
  match kvs with
  | [] => Option.none
  | (k', v) :: rest => if k' = k then some v else lookupKv rest k

/-- Python `v[k]` for a string key `k`: dict lookup (`KeyError` when the
key is missing); every other type raises `TypeError` (lists and strings
reject string indices, `int`/`float`/`bool`/`None` are not
subscriptable). -/
def pyGetItem (v : Value) (k : String) : Except ExnKind Value :=
  match v with
  | .dict kvs =>
      match lookupKv kvs k with
      | some x => .ok x
      | Option.none => .error .keyError
  | _ => .error .typeError

/-- Python `v[i]` for a natural index: list indexing (`IndexError` out of
range), string indexing (a one-character string), dict lookup with an
`int` key misses every string key (`KeyError`); other types raise
`TypeError`. -/
def pyIndexInt (v : Value) (i : ℕ) : Except ExnKind Value :=
  match v with
  | .list xs =>
      match xs[i]? with
      | some x => .ok x
      | Option.none => .error .indexError
  | .str s =>
      match s.data[i]? with
      | some c => .ok (.str (String.mk [c]))
      | Option.none => .error .indexError
  | .dict _ => .error .keyError
  | _ => .error .typeError

/-- Python `v.get(k, dflt)`: defined on dicts; any other receiver lacks
the attribute `get` and raises `AttributeError`. -/
def pyGetDefault (v : Value) (k : String) (dflt : Value) : Except ExnKind Value :=
  match v with
  | .dict kvs =>
      match lookupKv kvs k with
      | some x => .ok x
      | Option.none => .ok dflt
  | _ => .error .attributeError

/-- `needle` is a prefix of `hay`. -/
def leadsWith : List Char → List Char → Bool
  | [], _ => true
  | _ :: _, [] => false
  | a :: as, b :: bs => a = b && leadsWith as bs

/-- `needle` occurs as a contiguous run inside `hay`. -/
def containsList (needle : List Char) : List Char → Bool
  | [] => needle.isEmpty
  | c :: t => leadsWith needle (c :: t) || containsList needle t

/-- Substring containment on strings (Python `needle in s` for `str`). -/
def containsSub (needle s : String) : Bool :=
  containsList needle.data s.data

/-- Python `needle in v` for a string `needle`: substring test on
strings, element membership on lists, key membership on dicts;
non-container types raise `TypeError`. -/
def pyContainsStr (needle : String) (v : Value) : Except ExnKind Bool :=
  match v with
  | .str s => .ok (containsSub needle s)
  | .list xs => .ok (xs.contains (.str needle))
  | .dict kvs => .ok (kvs.any (fun kv => kv.1 = needle))
  | _ => .error .typeError

/-- Python truthiness. -/
def pyTruthy : Value → Bool
  | .none => false
  | .bool b => b
  | .int n => n ≠ 0
  | .num q => q ≠ 0
  | .str s => s ≠ ""
  | .list xs => ¬ xs.isEmpty
  | .dict kvs => ¬ kvs.isEmpty

/-- Python `v += t` for a string `t`: string concatenation when `v` is a
string, `TypeError` otherwise. -/
def pyAddStr (v : Value) (t : String) : Except ExnKind Value :=
  match v with
  | .str s => .ok (.str (s ++ t))
  | _ => .error .typeError

/-- Python `round`: round half to even (CPython semantics), on an exact
rational. -/
def pyRound (q : ℚ) : ℤ :=
  if Int.fract q < 1/2 then ⌊q⌋
  else if 1/2 < Int.fract q then ⌊q⌋ + 1
  else if Even ⌊q⌋ then ⌊q⌋ else ⌊q⌋ + 1

/-- Python `round(v)` on a `Value`: identity on ints, half-even rounding
on floats, `True`/`False` count as `1`/`0`; other types raise
`TypeError`. -/
def pyRoundV (v : Value) : Except ExnKind ℤ :=
  match v with
  | .int n => .ok n
  | .num q => .ok (pyRound q)
  | .bool b => .ok (if b then 1 else 0)
  | _ => .error .typeError

/-- Python `v / d` for a numeric literal `d`: numbers (and bools)
divide, every other type raises `TypeError`. -/
def pyDivQ (v : Value) (d : ℚ) : Except ExnKind ℚ :=
  match v with
  | .int n => .ok ((n : ℚ) / d)
  | .num q => .ok (q / d)
  | .bool b => .ok ((if b then (1 : ℚ) else 0) / d)
  | _ => .error .typeError

/-- Smallest shift `k` (searched with fuel) making `q * 10^k` an
integer. -/
def shiftSearch (q : ℚ) : ℕ → ℕ → Option ℕ
  | _, 0 => Option.none
  | k, fuel + 1 =>
      if (q * (10 : ℚ) ^ k).den = 1 then some k else shiftSearch q (k + 1) fuel

/-- Left-pad a numeral string with zeros to width `k`. -/
def padZeros (s : String) (k : ℕ) : String :=
  if s.length < k then String.mk (List.replicate (k - s.length) '0') ++ s else s

/-- Python `repr` of a float, modelled on exact rationals: integral
values render as `n.0`, terminating decimals with their digits; a
non-terminating rational (unreachable for payloads written as decimal
literals) falls back to a fraction rendering. -/
def floatRepr (q : ℚ) : String :=
  if q.den = 1 then toString q.num ++ ".0"
  else
    match shiftSearch q 1 40 with
    | some k =>
        let n := (q * (10 : ℚ) ^ k).num
        (if n < 0 then "-" else "") ++ toString (n.natAbs / 10 ^ k) ++ "." ++
          (padZeros (toString (n.natAbs % 10 ^ k)) k)
    | Option.none => toString q.num ++ "/" ++ toString q.den

mutual

/-- Python `str(v)` as used by an f-string: strings verbatim, ints and
floats by their repr, `True`/`False`/`None`, containers by `repr`. -/
def pyStrV : Value → String
  | .str s => s
  | .int n => toString n
  | .num q => floatRepr q
  | .bool b => if b then "True" else "False"
  | .none => "None"
  | .list xs => "[" ++ pyStrList xs ++ "]"
  | .dict kvs => "\x7b" ++ pyStrDict kvs ++ "\x7d"

def pyStrList : List Value → String
  | [] => ""
  | [v] => pyReprV v
  | v :: rest => pyReprV v ++ ", " ++ pyStrList rest

def pyStrDict : List (String × Value) → String
  | [] => ""
  | [(k, v)] => "\x27" ++ k ++ "\x27: " ++ pyReprV v
  | (k, v) :: rest => "\x27" ++ k ++ "\x27: " ++ pyReprV v ++ ", " ++ pyStrDict rest

/-- Python `repr(v)` (containers render their elements with `repr`;
strings gain quotes). -/
def pyReprV : Value → String
  | .str s => "\x27" ++ s ++ "\x27"
  | v => pyStrV v
end

/-- Python's `:.1f` format on an exact rational: round half to even at
one decimal and render with exactly one digit after the point. -/
def fmtOneDec (q : ℚ) : String :=
  let n := pyRound (q * 10)
  (if n < 0 then "-" else "") ++ toString (n.natAbs / 10) ++ "." ++ toString (n.natAbs % 10)

/-- Python `\s` restricted to ASCII whitespace (the texts this plugin
handles). -/
def isPySpace (c : Char) : Bool :=
  c = ' ' || c = '\t' || c = '\n' || c = '\r' || c = '\x0b' || c = '\x0c'

/-- Python's Unicode `\w` on the character ranges relevant here: ASCII
alphanumerics, underscore, and the CJK unified ideographs block
`一`–`龥` that `LOCATION_PATTERN` also uses. -/
def isWordChar (c : Char) : Bool :=
  c.isAlphanum || c = '_' || (0x4e00 ≤ c.toNat && c.toNat ≤ 0x9fa5)

/-- The character class `[一-龥a-zA-Z]` of `LOCATION_PATTERN`. -/
def isLocChar (c : Char) : Bool :=
  (0x4e00 ≤ c.toNat && c.toNat ≤ 0x9fa5) ||
    (('a' ≤ c) && (c ≤ 'z')) || (('A' ≤ c) && (c ≤ 'Z'))

/-- Head of a character list is a `\w` character. -/
def headWord : List Char → Bool
  | [] => false
  | d :: _ => isWordChar d

/-- Fuelled scanner for `MENTION_PATTERN.sub("", ·)`: delete every
non-overlapping leftmost match of `@\w+\s*`, the scan resuming at each
match end (Python `re.sub` semantics; `@\w+\s*` never needs
backtracking since `@` is neither a word nor a space character).  A
match consumes at least one character beyond the scan position, so any
fuel of at least the list length is exact. -/
def mentionSubGo : ℕ → List Char → List Char
  | _, [] => []
  | 0, l => l
  | fuel + 1, c :: cs =>
      if c = '@' && headWord cs then
        mentionSubGo fuel ((cs.dropWhile isWordChar).dropWhile isPySpace)
      else c :: mentionSubGo fuel cs

/-- `MENTION_PATTERN.sub("", ·)` on character lists. -/
def mentionSub (l : List Char) : List Char :=
  mentionSubGo l.length l

/-- `MENTION_PATTERN.sub("", ·)` on strings. -/
def mentionSubStr (s : String) : String :=
  String.mk (mentionSub s.data)

/-- Some position of the list starts a match of `@\w+` (hence of
`MENTION_PATTERN`). -/
def hasMatch : List Char → Bool
  | [] => false
  | c :: cs => (c = '@' && headWord cs) || hasMatch cs

/-- Head of a character list is `'@'`. -/
def headAt : List Char → Bool
  | [] => false
  | d :: _ => d = '@'

/-- No two consecutive `'@'` characters. -/
def noAtAt : List Char → Bool
  | [] => true
  | c :: cs => !(c = '@' && headAt cs) && noAtAt cs

/-- Backtracking for a greedy `cls+`: `tryLens cls cs k n` tries `k` on
the splits of `cs` after `n, n-1, ..., 1` consumed characters (longest
first, as the regex engine does). -/
def tryLens (cs : List Char) (k : List Char → List Char → Option α) : ℕ → Option α
  | 0 => Option.none
  | n + 1 =>
      match k (cs.take (n + 1)) (cs.drop (n + 1)) with
      | some r => some r
      | Option.none => tryLens cs k n

/-- Greedy `cls+` at the head of `cs` with backtracking into the
continuation `k` (which receives the consumed run and the rest). -/
def tryPlus (cls : Char → Bool) (cs : List Char) (k : List Char → List Char → Option α) :
    Option α :=
  tryLens cs k (cs.takeWhile cls).length

/-- Greedy `(\s+ [一-龥a-zA-Z]+)*` at `cs`: more iterations preferred,
each `+` greedy with backtracking; `k` receives the consumed characters
and the rest.  `fuel` bounds the iteration count (each iteration
consumes at least two characters, so `cs.length` is always enough). -/
def matchTail (fuel : ℕ) (cs : List Char) (k : List Char → List Char → Option α) : Option α :=
  match fuel with
  | 0 => k [] cs
  | fuel + 1 =>
      match tryPlus isPySpace cs (fun sp rest1 =>
          tryPlus isLocChar rest1 (fun w rest2 =>
            matchTail fuel rest2 (fun g r => k (sp ++ w ++ g) r))) with
      | some r => some r
      | Option.none => k [] cs

/-- The city-name phrase `[一-龥a-zA-Z]+(?:\s+[一-龥a-zA-Z]+)*` at the
head of `cs`, greedy with backtracking into `k`. -/
def matchPhrase (cs : List Char) (k : List Char → List Char → Option α) : Option α :=
  tryPlus isLocChar cs (fun w rest =>
    matchTail rest.length rest (fun g r => k (w ++ g) r))

/-- Group values of a `LOCATION_PATTERN` match: `.group(1)` and
`.group(2)`. -/
structure LocGroups where
  group1 : Option String
  group2 : Option String
deriving DecidableEq, Repr

/-- First alternative of `LOCATION_PATTERN` anchored at `cs`:
`(phrase)(?:天气|weather)`. -/
def locBranchOne (cs : List Char) : Option LocGroups :=
  matchPhrase cs (fun p rest =>
    if leadsWith "天气".data rest || leadsWith "weather".data rest then
      some ⟨some (String.mk p), Option.none⟩
    else Option.none)

/-- Second alternative of `LOCATION_PATTERN` anchored at `cs`:
`(?:天气|weather)\s*(phrase)` — the alternation tries `天气` first, and
`\s*` and the phrase classes are disjoint, so maximal munch needs no
backtracking against the phrase. -/
def locBranchTwo (cs : List Char) : Option LocGroups :=
  if leadsWith "天气".data cs then
    matchPhrase ((cs.drop 2).dropWhile isPySpace)
      (fun p _ => some ⟨Option.none, some (String.mk p)⟩)
  else if leadsWith "weather".data cs then
    matchPhrase ((cs.drop 7).dropWhile isPySpace)
      (fun p _ => some ⟨Option.none, some (String.mk p)⟩)
  else Option.none

/-- `LOCATION_PATTERN` anchored at `cs`: the left alternative (phrase
before keyword) is preferred. -/
def locHere (cs : List Char) : Option LocGroups :=
  match locBranchOne cs with
  | some g => some g
  | Option.none => locBranchTwo cs

/-- `LOCATION_PATTERN.search`: try each position left to right. -/
def locSearchList : List Char → Option LocGroups
  | [] => Option.none
  | c :: rest =>
      match locHere (c :: rest) with
      | some g => some g
      | Option.none => locSearchList rest

/-- `LOCATION_PATTERN.search` on a string. -/
def locationSearch (s : String) : Option LocGroups :=
  locSearchList s.data

/-- Python `str.strip()` (whitespace at both ends). -/
def pyStrip (s : String) : String :=
  String.mk (((s.data.dropWhile isPySpace).reverse.dropWhile isPySpace).reverse)

/-- Python `a or b or ""` on the two optional match groups (`None` and
the empty string are falsy). -/
def pyOrGroups (g1 g2 : Option String) : String :=
  match g1 with
  | some s => if s = "" then (match g2 with
      | some t => if t = "" then "" else t
      | Option.none => "") else s
  | Option.none =>
      match g2 with
      | some t => if t = "" then "" else t
      | Option.none => ""

/-- Python `weather_info or fallback` where `weather_info` is an
optional string. -/
def pyOrElse (wi : Option String) (fb : String) : String :=
  match wi with
  | some s => if s = "" then fb else s
  | Option.none => fb

/-- The fixed prompt-for-city reply text. -/
def promptText : String := "请指定要查询的城市，例如：北京天气 或 天气上海"

/-- The fixed city-not-found text (built around the city name). -/
def notFoundText (city : String) : String :=
  "抱歉，找不到城市 \x27" ++ city ++ "\x27 的位置信息。"

/-- The fixed "service unavailable" text. -/
def unavailableText : String := "抱歉，天气服务暂时不可用。"

/-- The fixed "error occurred" text. -/
def errorText : String := "抱歉，获取天气信息时出现错误。"

/-- The fixed "parsing failed" text. -/
def parseFailedText : String := "抱歉，天气数据解析失败。"

/-- The generic apology fallback of `_handle_weather_request`. -/
def fallbackText (location : String) : String :=
  "抱歉，无法获取 " ++ location ++ " 的天气信息。"

/-- Modelled from the spec: `PluginBase.name` (the plugin name attribute,
absent from `src/`); any fixed string works for the claims. -/
def pluginName : String := "weather"

/-- Modelled from the spec: `PluginBase._extract_username` — "sender
identity extracted from a conventional field (external collaborator
responsibility)"; a total function of the event, never raising. -/
def extractUsername (data : Value) : String :=
  match data with
  | .dict kvs =>
      match lookupKv kvs "user" with
      | some (.dict u) =>
          match lookupKv u "username" with
          | some (.str s) => s
          | _ => "unknown"
      | _ => "unknown"
  | _ => "unknown"

/-- Modelled from the spec: `PluginBase._validate_plugin_response` — the
reply "must contain `handled`, `plugin_name`, non-empty `response`"; on
the structured `Reply` the first two are always present, so validation
checks the response is non-empty. -/
def validatePluginResponse (r : Reply) : Bool :=
  r.response ≠ ""

/-- One outbound HTTP interaction, as seen by the caller: a transport
error raised by `session.get`, or a response with an HTTP status whose
`json()` decoding yields a value or raises. -/
inductive HttpOutcome where
  | err (t : TransErr)
  | resp (status : ℕ) (body : Except JsonErr Value)

/-- `await response.json()`. -/
def liftJson : Except JsonErr Value → Except ExnKind Value
  | .ok v => .ok v
  | .error e => .error e.toExn

/-- The body of `_get_coordinates` before its `try/except`: issue the
geocoding request, take the first hit, build the display name. -/
def getCoordinatesBody (o : HttpOutcome) : Except ExnKind (Option (Value × Value × Value)) :=
  match o with
  | .err t => .error t.toExn
  | .resp status body =>
      if status ≠ 200 then .ok Option.none
      else do
        let data ← liftJson body
        if pyTruthy data = false then .ok Option.none
        else do
          let location ← pyIndexInt data 0
          let nm ← pyGetItem location "name"
          let hasCountry ← pyContainsStr "country" location
          let displayName ←
            if hasCountry then do
              let c ← pyGetItem location "country"
              pyAddStr nm (", " ++ pyStrV c)
            else pure nm
          let lat ← pyGetItem location "lat"
          let lon ← pyGetItem location "lon"
          .ok (some (lat, lon, displayName))

/-- `_get_coordinates`: the body under
`except (aiohttp.ClientError, OSError, ValueError, KeyError): return None`. -/
def getCoordinates (o : HttpOutcome) : Except ExnKind (Option (Value × Value × Value)) :=
  pyCatch [.clientError, .osError, .valueError, .keyError] Option.none (getCoordinatesBody o)

/-- The fixed `weather_text` template of `_format_weather_info_v25`
(before the optional visibility line). -/
def weatherTemplate (displayName : Value) (temp feelsLike : ℤ)
    (humidity description windSpeed pressure : Value) : String :=
  "🌤️ " ++ pyStrV displayName ++ " 的天气:\n" ++
  "🌡️ 温度: " ++ toString temp ++ "°C (体感 " ++ toString feelsLike ++ "°C)\n" ++
  "💧 湿度: " ++ pyStrV humidity ++ "%\n" ++
  "☁️ 天气: " ++ pyStrV description ++ "\n" ++
  "💨 风速: " ++ pyStrV windSpeed ++ " m/s\n" ++
  "🌊 气压: " ++ pyStrV pressure ++ " hPa"

/-- The body of `_format_weather_info_v25` before its `try/except`:
field extraction, rounding, template assembly, optional visibility
line. -/
def formatBody (data : Value) (displayName : Value) : Except ExnKind String := do
  let main ← pyGetItem data "main"
  let temp ← pyRoundV (← pyGetItem main "temp")
  let feelsLike ← pyRoundV (← pyGetItem main "feels_like")
  let humidity ← pyGetItem main "humidity"
  let pressure ← pyGetItem main "pressure"
  let description ← pyGetItem (← pyIndexInt (← pyGetItem data "weather") 0) "description"
  let windOuter ← pyGetDefault data "wind" (.dict [])
  let windSpeed ← pyGetDefault windOuter "speed" (.int 0)
  let visCond ← pyGetDefault data "visibility" .none
  let visRaw ← pyGetDefault data "visibility" (.int 0)
  let visibility ← if pyTruthy visCond then pyDivQ visRaw 1000 else pure (0 : ℚ)
  if visibility > 0 then
    .ok (weatherTemplate displayName temp feelsLike humidity description windSpeed pressure
      ++ "\n👁️ 能见度: " ++ fmtOneDec visibility ++ " km")
  else .ok (weatherTemplate displayName temp feelsLike humidity description windSpeed pressure)

/-- `_format_weather_info_v25`: the body under
`except (ValueError, KeyError, TypeError): return` the fixed parse-failed
string. -/
def formatWeatherInfoV25 (data : Value) (displayName : Value) : Except ExnKind String :=
  pyCatch [.valueError, .keyError, .typeError] parseFailedText (formatBody data displayName)

/-- The body of `_get_weather` before its `try/except`: geocode the
city, then fetch and format current weather (the latitude/longitude are
only forwarded as query parameters). -/
def getWeatherBody (city : String) (geo wx : HttpOutcome) : Except ExnKind (Option String) := do
  let coordinates ← getCoordinates geo
  match coordinates with
  | Option.none => .ok (some (notFoundText city))
  | some (_lat, _lon, displayName) =>
      match wx with
      | .err t => .error t.toExn
      | .resp status body =>
          if status = 200 then do
            let data ← liftJson body
            let s ← formatWeatherInfoV25 data displayName
            .ok (some s)
          else .ok (some unavailableText)

/-- `_get_weather`: the body under
`except (aiohttp.ClientError, OSError, ValueError, KeyError): return` the
fixed error-occurred string. -/
def getWeather (city : String) (geo wx : HttpOutcome) : Except ExnKind (Option String) :=
  pyCatch [.clientError, .osError, .valueError, .keyError] (some errorText)
    (getWeatherBody city geo wx)

/-- `_handle_weather_request`: extract the location from the match
groups (`group(1) or group(2) or ""`, stripped); prompt for a city when
empty, otherwise fetch weather and wrap it in a validated reply. -/
def handleWeatherRequest (m : Option LocGroups) (geo wx : HttpOutcome) :
    Except ExnKind (Option Reply) := do
  let location :=
    match m with
    | some g => pyStrip (pyOrGroups g.group1 g.group2)
    | Option.none => ""
  if location = "" then
    .ok (some ⟨true, pluginName, promptText⟩)
  else do
    let weatherInfo ← getWeather location geo wx
    let response : Reply := ⟨true, pluginName, pyOrElse weatherInfo (fallbackText location)⟩
    if validatePluginResponse response then .ok (some response) else .ok Option.none

/-- `_process_weather_message`: read `text` (default `""`), return
`None` unless a weather keyword occurs (the `and` of the two `not in`
tests short-circuits as in Python), strip mentions, search for a
location, and delegate. -/
def processWeatherMessage (data : Value) (geo wx : HttpOutcome) :
    Except ExnKind (Option Reply) := do
  let text ← pyGetDefault data "text" (.str "")
  let b1 ← pyContainsStr "天气" text
  let proceed ← if b1 then pure true else pyContainsStr "weather" text
  if proceed = false then .ok Option.none
  else do
    let _username := extractUsername data
    let cleaned ←
      match text with
      | .str s => .ok (mentionSubStr s)
      | _ => .error ExnKind.typeError
    let locationMatch := locationSearch cleaned
    handleWeatherRequest locationMatch geo wx

/-- The body of `on_mention` before its `try/except`: unwrap the
`note`/`type` envelope, then process. -/
def onMentionBody (data : Value) (geo wx : HttpOutcome) : Except ExnKind (Option Reply) := do
  let hasNote ← pyContainsStr "note" data
  let noteData ←
    if hasNote then do
      let hasType ← pyContainsStr "type" data
      if hasType then pyGetDefault data "note" data else pure data
    else pure data
  processWeatherMessage noteData geo wx

/-- `on_mention`: the body under
`except (ValueError, KeyError): return None`. -/
def onMention (data : Value) (geo wx : HttpOutcome) : Except ExnKind (Option Reply) :=
  pyCatch [.valueError, .keyError] Option.none (onMentionBody data geo wx)

/-- `on_message`: `_process_weather_message` under
`except (ValueError, KeyError): return None`. -/
def onMessage (data : Value) (geo wx : HttpOutcome) : Except ExnKind (Option Reply) :=
  pyCatch [.valueError, .keyError] Option.none (processWeatherMessage data geo wx)

/-- `x` can only fail with an exception kind satisfying `S`. -/
def errWithin (S : ExnKind → Bool) (x : Except ExnKind α) : Prop :=
  ∀ e, x = Except.error e → S e = true

/-- Every ok value of `x` satisfies `P`. -/
def okWithin (P : α → Prop) (x : Except ExnKind α) : Prop :=
  ∀ a, x = Except.ok a → P a

/-- The only exception kinds the plugin lets escape anywhere:
`TypeError`, `IndexError`, `AttributeError`. -/
def escErrs : ExnKind → Bool
  | .typeError => true
  | .indexError => true
  | .attributeError => true
  | _ => false

/-- Exception kinds the body of `_get_coordinates` can raise (everything
it touches except `IndexError`/`AttributeError`, which its truthiness
guard and its lack of `.get` calls make unreachable). -/
def geoBodyErrs : ExnKind → Bool
  | .indexError => false
  | .attributeError => false
  | _ => true

/-- Exception kinds the body of `_format_weather_info_v25` can raise. -/
def fmtBodyErrs : ExnKind → Bool
  | .keyError => true
  | .typeError => true
  | .indexError => true
  | .attributeError => true
  | _ => false

/-- Exception kinds the body of `_get_weather` can raise. -/
def wxBodyErrs : ExnKind → Bool
  | .keyError => false
  | _ => true

/-- A well-formed current-weather payload as the interface section of
the spec describes it: the required `main` fields, one `weather` entry
with a description, a wind speed, and an optional integer `visibility`
in meters. -/
def mkPayload (t f : ℚ) (h p : ℤ) (desc : String) (ws : ℚ) (vis : Option ℤ) : Value :=
  .dict ([("main", .dict [("temp", .num t), ("feels_like", .num f),
            ("humidity", .int h), ("pressure", .int p)]),
          ("weather", .list [.dict [("description", .str desc)]]),
          ("wind", .dict [("speed", .num ws)])] ++
         (match vis with
          | some v => [("visibility", .int v)]
          | Option.none => []))

/-- The sequence of required-field lookups of
`_format_weather_info_v25`: `main`, `main.temp`, `main.feels_like`,
`main.humidity`, `main.pressure`, `weather`, `weather[0]`,
`weather[0].description`, in the order the formatter performs them. -/
def requiredProbe (data : Value) : Except ExnKind Unit := do
  let main ← pyGetItem data "main"
  let _ ← pyGetItem main "temp"
  let _ ← pyGetItem main "feels_like"
  let _ ← pyGetItem main "humidity"
  let _ ← pyGetItem main "pressure"
  let w ← pyGetItem data "weather"
  let w0 ← pyIndexInt w 0
  let _ ← pyGetItem w0 "description"
  pure ()

/-- The payload is missing (or cannot deliver) one of the formatter's
required fields. -/
def missingRequired (data : Value) : Bool :=
  match requiredProbe data with
  | .ok _ => false
  | .error _ => true

/-- A geocoding response with one hit (name `Beijing`, integer
coordinates). -/
def geoOneHit : HttpOutcome :=
  .resp 200 (.ok (.list [.dict [("name", .str "Beijing"), ("lat", .int 39), ("lon", .int 116)]]))

/-- A 200 weather response whose required `main` fields are present but
whose `weather` array is empty. -/
def wxEmptyWeather : HttpOutcome :=
  .resp 200 (.ok (.dict
    [("main", .dict [("temp", .int 20), ("feels_like", .int 19), ("humidity", .int 50),
      ("pressure", .int 1000)]),
     ("weather", .list [])]))

/-- A payload whose `main` block is complete but whose `weather` array
is empty: `weather[0].description` is missing. -/
def missingDescPayload : Value :=
  .dict
    [("main", .dict [("temp", .int 20), ("feels_like", .int 19), ("humidity", .int 50),
      ("pressure", .int 1000)]),
     ("weather", .list [])]

/-- Exception kinds the body of `_get_weather` can raise once the
geocoding step is known to succeed. -/
def wxGeoOkErrs : ExnKind → Bool
  | .typeError => false
  | .keyError => false
  | _ => true

theorem errWithin_ok (S : ExnKind → Bool) (a : α) : errWithin S (Except.ok a) := by
  intro e h
  cases h

theorem errWithin_error {S : ExnKind → Bool} {e : ExnKind} (h : S e = true) :
    errWithin S (Except.error e : Except ExnKind α) := by
  intro e' h'
  cases h'
  exact h

theorem errWithin_bind {S : ExnKind → Bool} {x : Except ExnKind α}
    {f : α → Except ExnKind β} (hx : errWithin S x) (hf : ∀ a, errWithin S (f a)) :
    errWithin S (x >>= f) := by
  cases x with
  | error e => intro e' h'; exact hx e' (by cases h'; rfl)
  | ok a => exact hf a

theorem errWithin_mono {S T : ExnKind → Bool} {x : Except ExnKind α}
    (hST : ∀ e, S e = true → T e = true) (hx : errWithin S x) : errWithin T x :=
  fun e h => hST e (hx e h)

/-- After `except (ks): return fb`, only the kinds of `S` outside `ks`
can still escape. -/
theorem errWithin_pyCatch {S : ExnKind → Bool} {x : Except ExnKind α}
    (ks : List ExnKind) (fb : α) (hx : errWithin S x) :
    errWithin (fun e => S e && !(ks.contains e)) (pyCatch ks fb x) := by
  cases x with
  | error e =>
      intro e' h'
      simp only [pyCatch] at h'
      by_cases hk : ks.contains e
      · simp [hk] at h'
      · simp only [hk, if_neg] at h'
        cases h'
        simp [hx e rfl, hk]
  | ok a => intro e' h'; simp [pyCatch] at h'

theorem okWithin_bind {P : β → Prop} {x : Except ExnKind α}
    {f : α → Except ExnKind β} (hf : ∀ a, okWithin P (f a)) :
    okWithin P (x >>= f) := by
  cases x with
  | error e => intro a h; cases h
  | ok a => exact hf a

theorem okWithin_ok {P : α → Prop} {a : α} (h : P a) :
    okWithin P (Except.ok a : Except ExnKind α) := by
  intro a' h'
  cases h'
  exact h

theorem okWithin_error (P : α → Prop) (e : ExnKind) :
    okWithin P (Except.error e : Except ExnKind α) := by
  intro a h
  cases h

theorem okWithin_pyCatch {P : α → Prop} {x : Except ExnKind α}
    {ks : List ExnKind} {fb : α} (hfb : P fb) (hx : okWithin P x) :
    okWithin P (pyCatch ks fb x) := by
  cases x with
  | error e =>
      intro a h
      simp only [pyCatch] at h
      by_cases hk : ks.contains e
      · simp only [hk, if_pos] at h
        cases h
        exact hfb
      · simp [hk] at h
  | ok a => intro a' h'; simp only [pyCatch] at h'; exact hx a' h'

theorem pyGetItem_errs (v : Value) (k : String) :
    errWithin (fun e => e = .keyError || e = .typeError) (pyGetItem v k) := by
  cases v <;> intro e h <;> simp only [pyGetItem] at h
  case dict kvs =>
    cases hl : lookupKv kvs k <;> simp [hl] at h <;> simp [h]
  all_goals (cases h; simp)

theorem pyIndexInt_errs (v : Value) (i : ℕ) :
    errWithin (fun e => e = .keyError || e = .typeError || e = .indexError)
      (pyIndexInt v i) := by
  cases v <;> intro e h <;> simp only [pyIndexInt] at h
  case list xs =>
    cases hl : xs[i]? <;> simp [hl] at h <;> simp [h]
  case str s =>
    cases hl : s.data[i]? <;> simp [hl] at h <;> simp [h]
  all_goals (cases h; simp)

theorem pyGetDefault_errs (v : Value) (k : String) (d : Value) :
    errWithin (fun e => e = .attributeError) (pyGetDefault v k d) := by
  cases v <;> intro e h <;> simp only [pyGetDefault] at h
  case dict kvs =>
    cases hl : lookupKv kvs k <;> simp [hl] at h
  all_goals (cases h; simp)

theorem pyContainsStr_errs (needle : String) (v : Value) :
    errWithin (fun e => e = .typeError) (pyContainsStr needle v) := by
  cases v <;> intro e h <;> simp only [pyContainsStr] at h <;> (try cases h) <;> simp

theorem pyAddStr_errs (v : Value) (t : String) :
    errWithin (fun e => e = .typeError) (pyAddStr v t) := by
  cases v <;> intro e h <;> simp only [pyAddStr] at h <;> (try cases h) <;> simp

theorem pyRoundV_errs (v : Value) :
    errWithin (fun e => e = .typeError) (pyRoundV v) := by
  cases v <;> intro e h <;> simp only [pyRoundV] at h <;> (try cases h) <;> simp

theorem pyDivQ_errs (v : Value) (d : ℚ) :
    errWithin (fun e => e = .typeError) (pyDivQ v d) := by
  cases v <;> intro e h <;> simp only [pyDivQ] at h <;> (try cases h) <;> simp

theorem liftJson_errs (b : Except JsonErr Value) :
    errWithin (fun e => e = .clientError || e = .valueError) (liftJson b) := by
  cases b with
  | ok v => exact errWithin_ok _ _
  | error e => cases e <;> exact errWithin_error (by decide)

/-- `errWithin_mono` with the arguments ordered so the sets elaborate
first. -/
theorem errWithin_weaken {S T : ExnKind → Bool} {x : Except ExnKind α}
    (hx : errWithin S x) (hST : ∀ e, S e = true → T e = true) : errWithin T x :=
  fun e h => hST e (hx e h)

/-- A string with a non-empty prefix is non-empty. -/
theorem str_append_ne_empty (s t : String) (hs : s ≠ "") : s ++ t ≠ "" := by
  intro h
  have hd := congrArg String.data h
  simp only [String.data_append] at hd
  rcases List.append_eq_nil.mp hd with ⟨h1, _⟩
  apply hs
  cases s
  simp_all

/-- Indexing a truthy value at 0 never raises `IndexError` (a truthy
list or string is non-empty). -/
theorem pyIndexInt_zero_truthy_errs (v : Value) (hv : pyTruthy v = true) :
    errWithin (fun e => e = .keyError || e = .typeError) (pyIndexInt v 0) := by
  cases v <;> simp only [pyTruthy] at hv <;>
    first
      | (intro e h; simp only [pyIndexInt] at h; cases h; simp)
      | skip
  case list xs =>
    cases xs with
    | nil => simp at hv
    | cons x rest => intro e h; simp only [pyIndexInt] at h; simp at h
  case str s =>
    cases s with
    | mk cs =>
      cases cs with
      | nil => simp at hv
      | cons c rest => intro e h; simp only [pyIndexInt] at h; simp at h

theorem errWithin_pure (S : ExnKind → Bool) (a : α) :
    errWithin S (pure a : Except ExnKind α) :=
  errWithin_ok S a

theorem getCoordinatesBody_errs (o : HttpOutcome) :
    errWithin geoBodyErrs (getCoordinatesBody o) := by
  unfold getCoordinatesBody
  cases o with
  | err t => dsimp only; cases t <;> exact errWithin_error (by decide)
  | resp status body =>
      dsimp only
      split
      · exact errWithin_ok _ _
      · refine errWithin_bind (errWithin_weaken (liftJson_errs body) (by decide)) fun data => ?_
        split
        · exact errWithin_ok _ _
        · rename_i hv
          refine errWithin_bind (errWithin_weaken
            (pyIndexInt_zero_truthy_errs data (by simpa using hv)) (by decide)) fun location => ?_
          refine errWithin_bind (errWithin_weaken
            (pyGetItem_errs location "name") (by decide)) fun nm => ?_
          refine errWithin_bind (errWithin_weaken
            (pyContainsStr_errs "country" location) (by decide)) fun hasCountry => ?_
          split
          · refine errWithin_bind (errWithin_weaken
              (pyGetItem_errs location "country") (by decide)) fun c => ?_
            refine errWithin_bind (errWithin_weaken
              (pyAddStr_errs nm _) (by decide)) fun displayName => ?_
            refine errWithin_bind (errWithin_weaken
              (pyGetItem_errs location "lat") (by decide)) fun lat => ?_
            refine errWithin_bind (errWithin_weaken
              (pyGetItem_errs location "lon") (by decide)) fun lon => ?_
            exact errWithin_ok _ _
          · refine errWithin_bind (errWithin_pure _ _) fun displayName => ?_
            refine errWithin_bind (errWithin_weaken
              (pyGetItem_errs location "lat") (by decide)) fun lat => ?_
            refine errWithin_bind (errWithin_weaken
              (pyGetItem_errs location "lon") (by decide)) fun lon => ?_
            exact errWithin_ok _ _

/-- The only exception `_get_coordinates` can let escape is `TypeError`
(raised by a malformed 200 payload, e.g. a non-dict first element). -/
theorem getCoordinates_errs (o : HttpOutcome) :
    errWithin (fun e => e = .typeError) (getCoordinates o) := by
  unfold getCoordinates
  exact errWithin_weaken (errWithin_pyCatch _ _ (getCoordinatesBody_errs o)) (by decide)

theorem formatBody_errs (data displayName : Value) :
    errWithin fmtBodyErrs (formatBody data displayName) := by
  unfold formatBody
  refine errWithin_bind (errWithin_weaken (pyGetItem_errs data "main") (by decide)) fun main => ?_
  refine errWithin_bind (errWithin_weaken (pyGetItem_errs main "temp") (by decide)) fun t1 => ?_
  refine errWithin_bind (errWithin_weaken (pyRoundV_errs t1) (by decide)) fun temp => ?_
  refine errWithin_bind (errWithin_weaken (pyGetItem_errs main "feels_like") (by decide))
    fun t2 => ?_
  refine errWithin_bind (errWithin_weaken (pyRoundV_errs t2) (by decide)) fun feelsLike => ?_
  refine errWithin_bind (errWithin_weaken (pyGetItem_errs main "humidity") (by decide))
    fun humidity => ?_
  refine errWithin_bind (errWithin_weaken (pyGetItem_errs main "pressure") (by decide))
    fun pressure => ?_
  refine errWithin_bind (errWithin_weaken (pyGetItem_errs data "weather") (by decide))
    fun w => ?_
  refine errWithin_bind (errWithin_weaken (pyIndexInt_errs w 0) (by decide)) fun w0 => ?_
  refine errWithin_bind (errWithin_weaken (pyGetItem_errs w0 "description") (by decide))
    fun description => ?_
  refine errWithin_bind (errWithin_weaken (pyGetDefault_errs data "wind" _) (by decide))
    fun windOuter => ?_
  refine errWithin_bind (errWithin_weaken (pyGetDefault_errs windOuter "speed" _) (by decide))
    fun windSpeed => ?_
  refine errWithin_bind (errWithin_weaken (pyGetDefault_errs data "visibility" _) (by decide))
    fun visCond => ?_
  refine errWithin_bind (errWithin_weaken (pyGetDefault_errs data "visibility" _) (by decide))
    fun visRaw => ?_
  dsimp only
  split
  · refine errWithin_bind (errWithin_weaken (pyDivQ_errs visRaw 1000) (by decide))
      fun visibility => ?_
    split
    · exact errWithin_ok _ _
    · exact errWithin_ok _ _
  · refine errWithin_bind (errWithin_pure _ _) fun visibility => ?_
    split
    · exact errWithin_ok _ _
    · exact errWithin_ok _ _

/-- The only exceptions `_format_weather_info_v25` can let escape are
`IndexError` (empty `weather` array) and `AttributeError` (non-dict
`wind` value). -/
theorem formatWeather_errs (data displayName : Value) :
    errWithin (fun e => e = .indexError || e = .attributeError)
      (formatWeatherInfoV25 data displayName) := by
  unfold formatWeatherInfoV25
  exact errWithin_weaken (errWithin_pyCatch _ _ (formatBody_errs data displayName)) (by decide)

theorem getWeatherBody_errs (city : String) (geo wx : HttpOutcome) :
    errWithin wxBodyErrs (getWeatherBody city geo wx) := by
  unfold getWeatherBody
  refine errWithin_bind (errWithin_weaken (getCoordinates_errs geo) (by decide))
    fun coordinates => ?_
  cases coordinates with
  | none => exact errWithin_ok _ _
  | some g3 =>
      rcases g3 with ⟨lat, lon, displayName⟩
      dsimp only
      cases wx with
      | err t => dsimp only; cases t <;> exact errWithin_error (by decide)
      | resp status body =>
          dsimp only
          split
          · refine errWithin_bind (errWithin_weaken (liftJson_errs body) (by decide))
              fun data => ?_
            refine errWithin_bind (errWithin_weaken (formatWeather_errs data displayName)
              (by decide)) fun s => ?_
            exact errWithin_ok _ _
          · exact errWithin_ok _ _

/-- The only exceptions `_get_weather` can let escape are `TypeError`,
`IndexError` and `AttributeError`. -/
theorem getWeather_errs (city : String) (geo wx : HttpOutcome) :
    errWithin escErrs (getWeather city geo wx) := by
  unfold getWeather
  exact errWithin_weaken (errWithin_pyCatch _ _ (getWeatherBody_errs city geo wx)) (by decide)

theorem handleWeatherRequest_errs (m : Option LocGroups) (geo wx : HttpOutcome) :
    errWithin escErrs (handleWeatherRequest m geo wx) := by
  unfold handleWeatherRequest
  dsimp only
  split
  · exact errWithin_ok _ _
  · refine errWithin_bind (getWeather_errs _ geo wx) fun wi => ?_
    dsimp only
    split
    · exact errWithin_ok _ _
    · exact errWithin_ok _ _

theorem processWeatherMessage_errs (data : Value) (geo wx : HttpOutcome) :
    errWithin escErrs (processWeatherMessage data geo wx) := by
  unfold processWeatherMessage
  refine errWithin_bind (errWithin_weaken (pyGetDefault_errs data "text" _) (by decide))
    fun text => ?_
  refine errWithin_bind (errWithin_weaken (pyContainsStr_errs "天气" text) (by decide))
    fun b1 => ?_
  dsimp only
  split
  · refine errWithin_bind (errWithin_pure _ _) fun proceed => ?_
    dsimp only
    split
    · exact errWithin_ok _ _
    · cases text <;>
        first
          | exact errWithin_bind (errWithin_ok _ _) fun cleaned =>
              handleWeatherRequest_errs _ geo wx
          | exact errWithin_bind (errWithin_error (by decide)) fun cleaned =>
              handleWeatherRequest_errs _ geo wx
  · refine errWithin_bind (errWithin_weaken (pyContainsStr_errs "weather" text) (by decide))
      fun proceed => ?_
    dsimp only
    split
    · exact errWithin_ok _ _
    · cases text <;>
        first
          | exact errWithin_bind (errWithin_ok _ _) fun cleaned =>
              handleWeatherRequest_errs _ geo wx
          | exact errWithin_bind (errWithin_error (by decide)) fun cleaned =>
              handleWeatherRequest_errs _ geo wx

theorem onMentionBody_errs (data : Value) (geo wx : HttpOutcome) :
    errWithin escErrs (onMentionBody data geo wx) := by
  unfold onMentionBody
  refine errWithin_bind (errWithin_weaken (pyContainsStr_errs "note" data) (by decide))
    fun hasNote => ?_
  dsimp only
  split
  · refine errWithin_bind (errWithin_weaken (pyContainsStr_errs "type" data) (by decide))
      fun hasType => ?_
    dsimp only
    split
    · exact errWithin_bind (errWithin_weaken (pyGetDefault_errs data "note" _) (by decide))
        fun noteData => processWeatherMessage_errs noteData geo wx
    · exact errWithin_bind (errWithin_pure _ _) fun noteData =>
        processWeatherMessage_errs noteData geo wx
  · exact errWithin_bind (errWithin_pure _ _) fun noteData =>
      processWeatherMessage_errs noteData geo wx

/-- Every exception `on_mention` lets escape is a `TypeError`,
`IndexError` or `AttributeError` — never one of the kinds its handler
catches. -/
theorem onMention_errs (data : Value) (geo wx : HttpOutcome) :
    errWithin escErrs (onMention data geo wx) := by
  unfold onMention
  exact errWithin_weaken (errWithin_pyCatch _ _ (onMentionBody_errs data geo wx)) (by decide)

/-- Every exception `on_message` lets escape is a `TypeError`,
`IndexError` or `AttributeError`. -/
theorem onMessage_errs (data : Value) (geo wx : HttpOutcome) :
    errWithin escErrs (onMessage data geo wx) := by
  unfold onMessage
  exact errWithin_weaken (errWithin_pyCatch _ _ (processWeatherMessage_errs data geo wx))
    (by decide)

theorem okWithin_bind_strong {Q : α → Prop} {P : β → Prop} {x : Except ExnKind α}
    {f : α → Except ExnKind β} (hx : okWithin Q x) (hf : ∀ a, Q a → okWithin P (f a)) :
    okWithin P (x >>= f) := by
  cases x with
  | error e => intro a h; cases h
  | ok a => exact hf a (hx a rfl)

theorem okWithin_pure {P : α → Prop} {a : α} (h : P a) :
    okWithin P (pure a : Except ExnKind α) :=
  okWithin_ok h

/-- The assembled weather text always starts with the fixed emoji
header, hence is non-empty. -/
theorem weatherTemplate_ne_empty (dn : Value) (t f : ℤ) (h d w p : Value) :
    weatherTemplate dn t f h d w p ≠ "" := by
  unfold weatherTemplate
  repeat apply str_append_ne_empty
  decide

/-- Every string `_format_weather_info_v25` returns is non-empty. -/
theorem formatWeather_ok_ne (data displayName : Value) :
    okWithin (fun s => s ≠ "") (formatWeatherInfoV25 data displayName) := by
  unfold formatWeatherInfoV25
  refine okWithin_pyCatch (by decide) ?_
  unfold formatBody
  refine okWithin_bind fun main => ?_
  refine okWithin_bind fun t1 => ?_
  refine okWithin_bind fun temp => ?_
  refine okWithin_bind fun t2 => ?_
  refine okWithin_bind fun feelsLike => ?_
  refine okWithin_bind fun humidity => ?_
  refine okWithin_bind fun pressure => ?_
  refine okWithin_bind fun w => ?_
  refine okWithin_bind fun w0 => ?_
  refine okWithin_bind fun description => ?_
  refine okWithin_bind fun windOuter => ?_
  refine okWithin_bind fun windSpeed => ?_
  refine okWithin_bind fun visCond => ?_
  refine okWithin_bind fun visRaw => ?_
  dsimp only
  split
  · refine okWithin_bind fun visibility => ?_
    split
    · refine okWithin_ok ?_
      unfold weatherTemplate
      repeat apply str_append_ne_empty
      decide
    · exact okWithin_ok (weatherTemplate_ne_empty _ _ _ _ _ _ _)
  · refine okWithin_bind fun visibility => ?_
    split
    · refine okWithin_ok ?_
      unfold weatherTemplate
      repeat apply str_append_ne_empty
      decide
    · exact okWithin_ok (weatherTemplate_ne_empty _ _ _ _ _ _ _)

/-- Every value `_get_weather` returns (rather than raises) is `some`
non-empty string: the formatted text or one of the fixed apology
strings — never `None`. -/
theorem getWeather_ok_shape (city : String) (geo wx : HttpOutcome) :
    okWithin (fun r => ∃ s, r = some s ∧ s ≠ "") (getWeather city geo wx) := by
  unfold getWeather
  refine okWithin_pyCatch ⟨errorText, rfl, by decide⟩ ?_
  unfold getWeatherBody
  refine okWithin_bind fun coordinates => ?_
  cases coordinates with
  | none =>
      refine okWithin_ok ⟨notFoundText city, rfl, ?_⟩
      unfold notFoundText
      repeat apply str_append_ne_empty
      decide
  | some g3 =>
      rcases g3 with ⟨lat, lon, displayName⟩
      dsimp only
      cases wx with
      | err t => exact okWithin_error _ _
      | resp status body =>
          dsimp only
          split
          · refine okWithin_bind fun data => ?_
            refine okWithin_bind_strong (formatWeather_ok_ne data displayName) fun s hs => ?_
            exact okWithin_ok ⟨s, rfl, hs⟩
          · exact okWithin_ok ⟨unavailableText, rfl, by decide⟩

theorem pyOrElse_ne_empty (wi : Option String) (fb : String) (hfb : fb ≠ "") :
    pyOrElse wi fb ≠ "" := by
  cases wi with
  | none => simpa [pyOrElse] using hfb
  | some s =>
      by_cases hs : s = ""
      · simpa [pyOrElse, hs] using hfb
      · simpa [pyOrElse, hs] using hs

/-- Every reply `_handle_weather_request` returns has a non-empty
response. -/
theorem handleWeatherRequest_ok (m : Option LocGroups) (geo wx : HttpOutcome) :
    okWithin (fun r => ∀ rep, r = some rep → rep.response ≠ "")
      (handleWeatherRequest m geo wx) := by
  unfold handleWeatherRequest
  dsimp only
  split
  · refine okWithin_ok fun rep h => ?_
    cases h
    decide
  · refine okWithin_bind fun wi => ?_
    dsimp only
    split
    · refine okWithin_ok fun rep h => ?_
      cases h
      refine pyOrElse_ne_empty _ _ ?_
      unfold fallbackText
      repeat apply str_append_ne_empty
      decide
    · exact okWithin_ok fun rep h => by cases h

/-- Every reply `_process_weather_message` returns has a non-empty
response. -/
theorem processWeatherMessage_ok (data : Value) (geo wx : HttpOutcome) :
    okWithin (fun r => ∀ rep, r = some rep → rep.response ≠ "")
      (processWeatherMessage data geo wx) := by
  unfold processWeatherMessage
  refine okWithin_bind fun text => ?_
  refine okWithin_bind fun b1 => ?_
  dsimp only
  split
  · refine okWithin_bind fun proceed => ?_
    dsimp only
    split
    · exact okWithin_ok fun rep h => by cases h
    · cases text <;> exact okWithin_bind fun cleaned => handleWeatherRequest_ok _ geo wx
  · refine okWithin_bind fun proceed => ?_
    dsimp only
    split
    · exact okWithin_ok fun rep h => by cases h
    · cases text <;> exact okWithin_bind fun cleaned => handleWeatherRequest_ok _ geo wx

/-- The scanner is fuel-irrelevant above the list length. -/
theorem mentionSubGo_eq :
    ∀ (fuel : ℕ) (l : List Char), l.length ≤ fuel →
      mentionSubGo fuel l = mentionSubGo l.length l := by
  intro fuel
  induction fuel using Nat.strong_induction_on with
  | _ fuel ih =>
      intro l hl
      cases l with
      | nil => cases fuel <;> rfl
      | cons c cs =>
          cases fuel with
          | zero => simp at hl
          | succ f =>
              have hcs : cs.length ≤ f := by simpa using hl
              have hdrop : ((cs.dropWhile isWordChar).dropWhile isPySpace).length ≤ cs.length :=
                le_trans (List.IsSuffix.length_le (List.dropWhile_suffix _))
                  (List.IsSuffix.length_le (List.dropWhile_suffix _))
              show (if c = '@' && headWord cs then
                  mentionSubGo f ((cs.dropWhile isWordChar).dropWhile isPySpace)
                else c :: mentionSubGo f cs) =
                (if c = '@' && headWord cs then
                  mentionSubGo cs.length ((cs.dropWhile isWordChar).dropWhile isPySpace)
                else c :: mentionSubGo cs.length cs)
              split
              · rw [ih f (Nat.lt_succ_self f) _ (le_trans hdrop hcs),
                  ih cs.length (Nat.lt_succ_of_le hcs) _ hdrop]
              · rw [ih f (Nat.lt_succ_self f) _ hcs]

/-- The one-step unfolding of mention stripping. -/
theorem mentionSub_cons (c : Char) (cs : List Char) :
    mentionSub (c :: cs) =
      if c = '@' && headWord cs then
        mentionSub ((cs.dropWhile isWordChar).dropWhile isPySpace)
      else c :: mentionSub cs := by
  unfold mentionSub
  have hdrop : ((cs.dropWhile isWordChar).dropWhile isPySpace).length ≤ cs.length :=
    le_trans (List.IsSuffix.length_le (List.dropWhile_suffix _))
      (List.IsSuffix.length_le (List.dropWhile_suffix _))
  show (if c = '@' && headWord cs then
      mentionSubGo cs.length ((cs.dropWhile isWordChar).dropWhile isPySpace)
    else c :: mentionSubGo cs.length cs) = _
  split
  · exact mentionSubGo_eq cs.length _ hdrop
  · rfl

theorem mentionSub_nil : mentionSub [] = [] := rfl

/-- When no position matches `@\w+`, `re.sub` leaves the string
unchanged. -/
theorem mentionSub_of_hasMatch_false :
    ∀ l : List Char, hasMatch l = false → mentionSub l = l := by
  intro l
  induction l with
  | nil => intro _; rfl
  | cons c cs ih =>
      intro h
      simp only [hasMatch, Bool.or_eq_false_iff] at h
      rw [mentionSub_cons]
      simp [h.1, ih h.2]

theorem noAtAt_tail {c : Char} {cs : List Char} (h : noAtAt (c :: cs) = true) :
    noAtAt cs = true := by
  simp only [noAtAt, Bool.and_eq_true] at h
  exact h.2

theorem noAtAt_dropWhile (p : Char → Bool) :
    ∀ l : List Char, noAtAt l = true → noAtAt (l.dropWhile p) = true := by
  intro l
  induction l with
  | nil => intro h; simpa using h
  | cons c cs ih =>
      intro h
      rw [List.dropWhile_cons]
      split
      · exact ih (noAtAt_tail h)
      · exact h

/-- After one pass of mention stripping over a string with no two
consecutive `'@'`, no `@\w+` match remains. -/
theorem noAtAt_sub_hasMatch_false (n : ℕ) :
    ∀ l : List Char, l.length ≤ n → noAtAt l = true → hasMatch (mentionSub l) = false := by
  induction n with
  | zero =>
      intro l hl _
      cases l with
      | nil => rfl
      | cons c cs => simp at hl
  | succ n ih =>
      intro l hl h
      cases l with
      | nil => rfl
      | cons c cs =>
          have hcs : cs.length ≤ n := by simpa using hl
          rw [mentionSub_cons]
          split
          · rename_i hg
            have hdrop : ((cs.dropWhile isWordChar).dropWhile isPySpace).length ≤ cs.length :=
              le_trans (List.IsSuffix.length_le (List.dropWhile_suffix _))
                (List.IsSuffix.length_le (List.dropWhile_suffix _))
            exact ih _ (le_trans hdrop hcs)
              (noAtAt_dropWhile _ _ (noAtAt_dropWhile _ _ (noAtAt_tail h)))
          · rename_i hg
            have hrest : hasMatch (mentionSub cs) = false := ih cs hcs (noAtAt_tail h)
            simp only [hasMatch, Bool.or_eq_false_iff]
            refine ⟨?_, hrest⟩
            by_cases hc : c = '@'
            · subst hc
              cases cs with
              | nil => simp [mentionSub_nil, headWord]
              | cons d cs' =>
                  have hd : isWordChar d = false := by
                    cases hiw : isWordChar d
                    · rfl
                    · exact absurd (by simp [headWord, hiw]) hg
                  have hdat : ¬ d = '@' := by
                    intro hdeq
                    subst hdeq
                    simp [noAtAt, headAt] at h
                  rw [mentionSub_cons, if_neg (by simp [hdat])]
                  simp [headWord, hd]
            · simp [hc]

/-- Mention stripping is idempotent on character lists without two
consecutive `'@'`. -/
theorem mentionSub_idem_of_noAtAt (l : List Char) (h : noAtAt l = true) :
    mentionSub (mentionSub l) = mentionSub l :=
  mentionSub_of_hasMatch_false _ (noAtAt_sub_hasMatch_false l.length l le_rfl h)

/-- `round` half-to-even always lands on a nearest integer: it differs
from its argument by at most one half. -/
theorem pyRound_nearest (q : ℚ) : |(pyRound q : ℚ) - q| ≤ 1/2 := by
  have h0 : Int.fract q = q - ⌊q⌋ := by
    unfold Int.fract
    ring
  have h1 := Int.fract_nonneg q
  have h2 := Int.fract_lt_one q
  rw [h0] at h1 h2
  unfold pyRound
  rw [h0]
  split_ifs with ha hb hc <;> rw [abs_le] <;> constructor <;> push_cast <;> linarith

theorem pyRound_nonneg {q : ℚ} (hq : 0 ≤ q) : 0 ≤ pyRound q := by
  have hf : (0:ℤ) ≤ ⌊q⌋ := Int.floor_nonneg.mpr hq
  unfold pyRound
  split_ifs <;> omega

theorem str_empty_append (s : String) : "" ++ s = s := rfl

/-- For a non-negative argument, the `:.1f` rendering is a numeral, a
point, and exactly one digit. -/
theorem fmtOneDec_shape (q : ℚ) (hq : 0 ≤ q) :
    ∃ a b : ℕ, b < 10 ∧ fmtOneDec q = toString a ++ "." ++ toString b := by
  have hn : 0 ≤ pyRound (q * 10) := pyRound_nonneg (by linarith)
  refine ⟨(pyRound (q * 10)).natAbs / 10, (pyRound (q * 10)).natAbs % 10,
    Nat.mod_lt _ (by norm_num), ?_⟩
  unfold fmtOneDec
  dsimp only
  rw [if_neg (by omega)]
  rw [str_empty_append]

/-- `Except.ok` is left identity for bind (Python: a successful step
feeds the next line). -/
theorem exc_bind_ok (a : α) (f : α → Except ExnKind β) : (Except.ok a >>= f) = f a := rfl

theorem exc_bind_error (e : ExnKind) (f : α → Except ExnKind β) :
    (Except.error e >>= f) = (Except.error e : Except ExnKind β) := rfl

/-- On a payload missing a required field, the formatter either returns
the fixed parse-failed string (`KeyError`/`TypeError` lookups, all
caught) or raises `IndexError` (an out-of-range `weather[0]`). -/
theorem format_missingRequired (data dn : Value) (h : missingRequired data = true) :
    formatWeatherInfoV25 data dn = .ok parseFailedText ∨
      formatWeatherInfoV25 data dn = .error .indexError := by
  unfold missingRequired requiredProbe at h
  unfold formatWeatherInfoV25 formatBody
  cases h1 : pyGetItem data "main" with
  | error e =>
      left
      have he := pyGetItem_errs data "main" e h1
      simp only [decide_eq_true_eq, Bool.or_eq_true] at he
      rcases he with he | he <;> subst he <;> rfl
  | ok main =>
  rw [h1] at h
  simp only [exc_bind_ok] at h ⊢
  cases h2 : pyGetItem main "temp" with
  | error e =>
      left
      have he := pyGetItem_errs main "temp" e h2
      simp only [decide_eq_true_eq, Bool.or_eq_true] at he
      rcases he with he | he <;> subst he <;> rfl
  | ok t1 =>
  rw [h2] at h
  simp only [exc_bind_ok] at h ⊢
  cases h2r : pyRoundV t1 with
  | error e =>
      left
      have he := pyRoundV_errs t1 e h2r
      simp only [decide_eq_true_eq] at he
      subst he
      rfl
  | ok temp =>
  simp only [exc_bind_ok]
  cases h3 : pyGetItem main "feels_like" with
  | error e =>
      left
      have he := pyGetItem_errs main "feels_like" e h3
      simp only [decide_eq_true_eq, Bool.or_eq_true] at he
      rcases he with he | he <;> subst he <;> rfl
  | ok t2 =>
  rw [h3] at h
  simp only [exc_bind_ok] at h ⊢
  cases h3r : pyRoundV t2 with
  | error e =>
      left
      have he := pyRoundV_errs t2 e h3r
      simp only [decide_eq_true_eq] at he
      subst he
      rfl
  | ok feelsLike =>
  simp only [exc_bind_ok]
  cases h4 : pyGetItem main "humidity" with
  | error e =>
      left
      have he := pyGetItem_errs main "humidity" e h4
      simp only [decide_eq_true_eq, Bool.or_eq_true] at he
      rcases he with he | he <;> subst he <;> rfl
  | ok humidity =>
  rw [h4] at h
  simp only [exc_bind_ok] at h ⊢
  cases h5 : pyGetItem main "pressure" with
  | error e =>
      left
      have he := pyGetItem_errs main "pressure" e h5
      simp only [decide_eq_true_eq, Bool.or_eq_true] at he
      rcases he with he | he <;> subst he <;> rfl
  | ok pressure =>
  rw [h5] at h
  simp only [exc_bind_ok] at h ⊢
  cases h6 : pyGetItem data "weather" with
  | error e =>
      left
      have he := pyGetItem_errs data "weather" e h6
      simp only [decide_eq_true_eq, Bool.or_eq_true] at he
      rcases he with he | he <;> subst he <;> rfl
  | ok w =>
  rw [h6] at h
  simp only [exc_bind_ok] at h ⊢
  cases h7 : pyIndexInt w 0 with
  | error e =>
      have he := pyIndexInt_errs w 0 e h7
      simp only [decide_eq_true_eq, Bool.or_eq_true] at he
      rcases he with (he | he) | he <;> subst he
      · left; rfl
      · left; rfl
      · right; rfl
  | ok w0 =>
  rw [h7] at h
  simp only [exc_bind_ok] at h ⊢
  cases h8 : pyGetItem w0 "description" with
  | error e =>
      left
      have he := pyGetItem_errs w0 "description" e h8
      simp only [decide_eq_true_eq, Bool.or_eq_true] at he
      rcases he with he | he <;> subst he <;> rfl
  | ok description =>
      rw [h8] at h
      simp at h

/-- C1 counterexample: an event dict whose `text` field is `None` makes
`"天气" not in text` raise `TypeError`, which `on_mention`'s
`except (ValueError, KeyError)` does not catch — the exception
propagates to the caller instead of becoming a `None` reply. -/
theorem c1_counterexample :
    onMention (.dict [("text", Value.none)]) (.err .clientError) (.err .clientError) =
      .error .typeError := rfl

/-- C1 (amended): the `on_mention`/`on_message` boundary converts only
`ValueError` and `KeyError` into "no reply"; any exception it lets
propagate is a `TypeError`, `IndexError` or `AttributeError` — so the
handler does not absorb every exception, but the ones it can leak are
exactly of those three kinds. -/
theorem c1_boundary_exceptions (data : Value) (geo wx : HttpOutcome) (e : ExnKind)
    (h : onMention data geo wx = .error e ∨ onMessage data geo wx = .error e) :
    e = .typeError ∨ e = .indexError ∨ e = .attributeError := by
  rcases h with h | h
  · have he := onMention_errs data geo wx e h
    cases e <;> simp_all [escErrs]
  · have he := onMessage_errs data geo wx e h
    cases e <;> simp_all [escErrs]

/-- C1 witness: the amended theorem applied to the concrete event
`{"text": None}`, whose processing raises `TypeError`. -/
theorem c1_boundary_exceptions_witness :
    ExnKind.typeError = .typeError ∨ ExnKind.typeError = .indexError ∨
      ExnKind.typeError = .attributeError :=
  c1_boundary_exceptions (.dict [("text", Value.none)]) (.err .clientError) (.err .clientError)
    .typeError (Or.inl rfl)

/-- C2: a message whose string `text` field contains neither `天气` nor
`weather` is not handled — `_process_weather_message` returns `None`. -/
theorem c2_no_keyword_no_reply (data : Value) (geo wx : HttpOutcome) (s : String)
    (h : pyGetDefault data "text" (.str "") = .ok (.str s))
    (hc1 : containsSub "天气" s = false) (hc2 : containsSub "weather" s = false) :
    processWeatherMessage data geo wx = .ok Option.none := by
  unfold processWeatherMessage
  rw [h]
  simp [exc_bind_ok, pyContainsStr, hc1, hc2]

/-- C2 witness: the theorem applied to the concrete event
`{"text": "你好"}`. -/
theorem c2_no_keyword_no_reply_witness :
    processWeatherMessage (.dict [("text", .str "你好")]) (.err .clientError)
      (.err .clientError) = .ok Option.none :=
  c2_no_keyword_no_reply _ _ _ "你好" rfl (by decide) (by decide)

/-- C3: a message whose string `text` contains a weather keyword but
whose mention-stripped text has no `LOCATION_PATTERN` match gets the
fixed prompt-for-city reply with `handled = true` and the plugin name —
not `None`. -/
theorem c3_keyword_no_city_prompts (data : Value) (geo wx : HttpOutcome) (s : String)
    (h : pyGetDefault data "text" (.str "") = .ok (.str s))
    (hk : containsSub "天气" s = true ∨ containsSub "weather" s = true)
    (hloc : locationSearch (mentionSubStr s) = Option.none) :
    processWeatherMessage data geo wx = .ok (some ⟨true, pluginName, promptText⟩) := by
  unfold processWeatherMessage
  rw [h]
  rcases hk with hk | hk
  · simp [exc_bind_ok, pyContainsStr, hk, handleWeatherRequest, hloc]
  · by_cases hk1 : containsSub "天气" s = true
    · simp [exc_bind_ok, pyContainsStr, hk1, handleWeatherRequest, hloc]
    · simp [exc_bind_ok, pyContainsStr, hk1, hk, handleWeatherRequest, hloc]

/-- C3 witness: the theorem applied to the concrete event
`{"text": "天气"}` (keyword alone, no city). -/
theorem c3_keyword_no_city_prompts_witness :
    processWeatherMessage (.dict [("text", .str "天气")]) (.err .clientError)
      (.err .clientError) = .ok (some ⟨true, pluginName, promptText⟩) :=
  c3_keyword_no_city_prompts _ _ _ "天气" rfl (Or.inl (by decide)) (by decide)

/-- C4 counterexample: stripping `@@a b` once yields `@b` (the first
`@` fails to match, `@a ` is deleted and the glued `@b` is not
rescanned), and stripping again yields the empty string — stripping
twice differs from stripping once. -/
theorem c4_counterexample :
    mentionSubStr (mentionSubStr "@@a b") ≠ mentionSubStr "@@a b" := by decide

/-- C4 (amended): mention stripping is idempotent for every string with
no two consecutive `@` characters; in general a deleted match can glue
a failed `@` onto following word characters, creating a fresh match for
the second pass. -/
theorem c4_strip_idempotent (s : String) (h : noAtAt s.data = true) :
    mentionSubStr (mentionSubStr s) = mentionSubStr s := by
  unfold mentionSubStr
  exact congrArg String.mk (mentionSub_idem_of_noAtAt s.data h)

/-- C4 witness: the amended theorem applied to `"@bob 天气"`. -/
theorem c4_strip_idempotent_witness :
    mentionSubStr (mentionSubStr "@bob 天气") = mentionSubStr "@bob 天气" :=
  c4_strip_idempotent "@bob 天气" (by decide)

/-- C5 (amended): given a successful geocoding (a latitude/longitude
input), `_get_weather` turns a transport error into the fixed
"error occurred" string, a non-200 status into the fixed "service
unavailable" string, and a JSON-decoding failure into the fixed
"error occurred" string; but it does not absorb every exception — what
it can still raise (from formatting a 200 body) is an `IndexError` or
`AttributeError`. -/
theorem c5_weather_client_failures (city : String) (geo : HttpOutcome)
    (lat lon dn : Value) (hgeo : getCoordinates geo = .ok (some (lat, lon, dn))) :
    (∀ t : TransErr, getWeather city geo (.err t) = .ok (some errorText)) ∧
    (∀ (st : ℕ) (body : Except JsonErr Value), st ≠ 200 →
      getWeather city geo (.resp st body) = .ok (some unavailableText)) ∧
    (∀ j : JsonErr, getWeather city geo (.resp 200 (.error j)) = .ok (some errorText)) ∧
    (∀ (wx : HttpOutcome) (e : ExnKind), getWeather city geo wx = .error e →
      e = .indexError ∨ e = .attributeError) := by
  refine ⟨?_, ?_, ?_, ?_⟩
  · intro t
    unfold getWeather getWeatherBody
    rw [hgeo]
    simp only [exc_bind_ok]
    cases t <;> rfl
  · intro st body hst
    unfold getWeather getWeatherBody
    rw [hgeo]
    simp only [exc_bind_ok]
    rw [if_neg hst]
    rfl
  · intro j
    unfold getWeather getWeatherBody
    rw [hgeo]
    simp only [exc_bind_ok]
    cases j <;> rfl
  · intro wx e h
    have hb : errWithin (fun e => e = .indexError || e = .attributeError)
        (getWeather city geo wx) := by
      unfold getWeather
      refine errWithin_weaken (errWithin_pyCatch (S := wxGeoOkErrs)
        [.clientError, .osError, .valueError, .keyError] (some errorText) ?_) (by decide)
      unfold getWeatherBody
      rw [hgeo]
      simp only [exc_bind_ok]
      cases wx with
      | err t => cases t <;> exact errWithin_error (by decide)
      | resp status body =>
          dsimp only
          split
          · refine errWithin_bind (errWithin_weaken (liftJson_errs body) (by decide))
              fun data => ?_
            refine errWithin_bind (errWithin_weaken (formatWeather_errs data dn) (by decide))
              fun s => ?_
            exact errWithin_ok _ _
          · exact errWithin_ok _ _
    have he := hb e h
    cases e <;> simp_all

/-- C5 counterexample: with a successful geocoding, a 200 weather
response whose `weather` array is empty makes the formatter raise
`IndexError`, which `_get_weather`'s
`except (ClientError, OSError, ValueError, KeyError)` does not catch —
the weather client raises past its boundary instead of returning a
string. -/
theorem c5_counterexample :
    getCoordinates geoOneHit = .ok (some (.int 39, .int 116, .str "Beijing")) ∧
    getWeather "北京" geoOneHit wxEmptyWeather = .error .indexError :=
  ⟨rfl, rfl⟩

/-- C5 witness: the amended theorem applied to the concrete geocoding
response `geoOneHit` and a 500 weather response. -/
theorem c5_weather_client_failures_witness :
    getWeather "北京" geoOneHit (.resp 500 (.ok (.dict []))) = .ok (some unavailableText) :=
  (c5_weather_client_failures "北京" geoOneHit (.int 39) (.int 116) (.str "Beijing") rfl).2.1
    500 (.ok (.dict [])) (by decide)

/-- C6 (amended): `_get_coordinates` turns a transport error, a non-200
status, a JSON-decoding failure and an empty result array into `None`;
but not every malformed payload: the only exception it can let escape
is a `TypeError` (e.g. a 200 array whose first element is not a dict). -/
theorem c6_geocoding_failures :
    (∀ t : TransErr, getCoordinates (.err t) = .ok Option.none) ∧
    (∀ (st : ℕ) (body : Except JsonErr Value), st ≠ 200 →
      getCoordinates (.resp st body) = .ok Option.none) ∧
    (∀ j : JsonErr, getCoordinates (.resp 200 (.error j)) = .ok Option.none) ∧
    (getCoordinates (.resp 200 (.ok (.list []))) = .ok Option.none) ∧
    (∀ (o : HttpOutcome) (e : ExnKind), getCoordinates o = .error e → e = .typeError) := by
  refine ⟨?_, ?_, ?_, rfl, ?_⟩
  · intro t
    cases t <;> rfl
  · intro st body hst
    unfold getCoordinates getCoordinatesBody
    dsimp only
    rw [if_pos hst]
    rfl
  · intro j
    cases j <;> rfl
  · intro o e h
    have he := getCoordinates_errs o e h
    cases e <;> simp_all

/-- C6 counterexample: a 200 geocoding payload `[42]` is malformed, yet
subscripting the non-dict first element raises `TypeError`, which the
client's `except (ClientError, OSError, ValueError, KeyError)` does not
catch — it surfaces to the caller instead of yielding `None`. -/
theorem c6_counterexample :
    getCoordinates (.resp 200 (.ok (.list [.int 42]))) = .error .typeError := rfl

/-- C6 witness: the amended theorem applied to a concrete 500
response. -/
theorem c6_geocoding_failures_witness :
    getCoordinates (.resp 500 (.ok (.list []))) = .ok Option.none :=
  c6_geocoding_failures.2.1 500 (.ok (.list [])) (by decide)

/-- C7 (amended): on every payload missing a required field, the
formatter returns the fixed parse-failed string — except when the
failing access is an out-of-range `weather[0]`, whose `IndexError` is
not among the caught `(ValueError, KeyError, TypeError)` and
propagates. -/
theorem c7_missing_field_parse_failed (data dn : Value) (h : missingRequired data = true) :
    formatWeatherInfoV25 data dn = .ok parseFailedText ∨
      formatWeatherInfoV25 data dn = .error .indexError :=
  format_missingRequired data dn h

/-- C7 counterexample: a payload with a complete `main` block but an
empty `weather` array is missing the required `weather[0].description`,
yet the formatter raises `IndexError` instead of returning the fixed
parse-failed string. -/
theorem c7_counterexample :
    missingRequired missingDescPayload = true ∧
    formatWeatherInfoV25 missingDescPayload (.str "北京") = .error .indexError ∧
    formatWeatherInfoV25 missingDescPayload (.str "北京") ≠ .ok parseFailedText :=
  ⟨rfl, rfl, fun h => by
    rw [show formatWeatherInfoV25 missingDescPayload (.str "北京") = .error .indexError
      from rfl] at h
    exact Except.noConfusion h⟩

/-- C7 witness: the amended theorem applied to a payload with no `main`
key (`KeyError`, caught, parse-failed string). -/
theorem c7_missing_field_parse_failed_witness :
    formatWeatherInfoV25 (.dict []) (.str "X") = .ok parseFailedText ∨
      formatWeatherInfoV25 (.dict []) (.str "X") = .error .indexError :=
  c7_missing_field_parse_failed (.dict []) (.str "X") rfl

/-- C8: on a well-formed payload the formatted output carries the
visibility line exactly when the payload's visibility is positive; the
line shows the value divided by 1000 (meters → kilometers) rendered by
the one-decimal `:.1f` format, and is omitted when visibility is 0,
negative or absent. -/
theorem c8_visibility_line (t f : ℚ) (h p : ℤ) (desc nm : String) (ws : ℚ) (v : ℤ) :
    (0 < v →
      formatWeatherInfoV25 (mkPayload t f h p desc ws (some v)) (.str nm) =
        .ok (weatherTemplate (.str nm) (pyRound t) (pyRound f) (.int h) (.str desc) (.num ws)
          (.int p) ++ "\n👁️ 能见度: " ++ fmtOneDec ((v : ℚ) / 1000) ++ " km")) ∧
    (¬ 0 < v →
      formatWeatherInfoV25 (mkPayload t f h p desc ws (some v)) (.str nm) =
        .ok (weatherTemplate (.str nm) (pyRound t) (pyRound f) (.int h) (.str desc) (.num ws)
          (.int p))) ∧
    (formatWeatherInfoV25 (mkPayload t f h p desc ws Option.none) (.str nm) =
      .ok (weatherTemplate (.str nm) (pyRound t) (pyRound f) (.int h) (.str desc) (.num ws)
        (.int p))) ∧
    (0 < v → ∃ a b : ℕ, b < 10 ∧ fmtOneDec ((v : ℚ) / 1000) = toString a ++ "." ++ toString b) := by
  refine ⟨?_, ?_, ?_, ?_⟩
  · intro hv
    have hv0 : v ≠ 0 := by omega
    have hq : (0:ℚ) < (v : ℚ) / 1000 := by
      have hc : (0:ℚ) < (v : ℚ) := by exact_mod_cast hv
      positivity
    simp [formatWeatherInfoV25, formatBody, mkPayload, pyGetItem, lookupKv, pyGetDefault,
      pyRoundV, pyIndexInt, pyTruthy, pyDivQ, pyCatch, exc_bind_ok, hv0, hq]
  · intro hv
    by_cases hv0 : v = 0
    · simp [formatWeatherInfoV25, formatBody, mkPayload, pyGetItem, lookupKv, pyGetDefault,
        pyRoundV, pyIndexInt, pyTruthy, pyDivQ, pyCatch, exc_bind_ok, hv0]
    · have hvle : (v : ℚ) ≤ 0 := by exact_mod_cast (by omega : v ≤ 0)
      have hq : ¬ ((0:ℚ) < (v : ℚ) / 1000) := by
        rw [not_lt]
        exact div_nonpos_iff.mpr (Or.inr ⟨hvle, by norm_num⟩)
      simp [formatWeatherInfoV25, formatBody, mkPayload, pyGetItem, lookupKv, pyGetDefault,
        pyRoundV, pyIndexInt, pyTruthy, pyDivQ, pyCatch, exc_bind_ok, hv0, hq]
  · simp [formatWeatherInfoV25, formatBody, mkPayload, pyGetItem, lookupKv, pyGetDefault,
      pyRoundV, pyIndexInt, pyTruthy, pyDivQ, pyCatch, exc_bind_ok]
  · intro hv
    refine fmtOneDec_shape _ ?_
    have hc : (0:ℚ) ≤ (v : ℚ) := by exact_mod_cast (by omega : (0:ℤ) ≤ v)
    positivity

/-- C8 witness: the theorem applied at a concrete payload with
visibility 10000 m. -/
theorem c8_visibility_line_witness :
    formatWeatherInfoV25 (mkPayload 20 19 50 1000 "晴" 3 (some 10000)) (.str "北京") =
      .ok (weatherTemplate (.str "北京") (pyRound 20) (pyRound 19) (.int 50) (.str "晴")
        (.num 3) (.int 1000) ++ "\n👁️ 能见度: " ++ fmtOneDec ((10000 : ℚ) / 1000) ++ " km") :=
  (c8_visibility_line 20 19 50 1000 "晴" "北京" 3 10000).1 (by norm_num)

/-- C9: on a well-formed payload the displayed temperature and
feels-like values are `round(temp)` and `round(feels_like)`; `round`
always lands on a nearest integer (within one half), and rounds the
spec's example 21.6 to 22. -/
theorem c9_rounded_temperature (t f : ℚ) (h p : ℤ) (desc nm : String) (ws : ℚ) :
    (formatWeatherInfoV25 (mkPayload t f h p desc ws Option.none) (.str nm) =
      .ok (weatherTemplate (.str nm) (pyRound t) (pyRound f) (.int h) (.str desc) (.num ws)
        (.int p))) ∧
    (∀ q : ℚ, |(pyRound q : ℚ) - q| ≤ 1/2) ∧
    (pyRound (216/10 : ℚ) = 22) := by
  refine ⟨?_, pyRound_nearest, ?_⟩
  · simp [formatWeatherInfoV25, formatBody, mkPayload, pyGetItem, lookupKv, pyGetDefault,
      pyRoundV, pyIndexInt, pyTruthy, pyDivQ, pyCatch, exc_bind_ok]
  · have hfl : ⌊(216/10 : ℚ)⌋ = 21 := by
      apply Int.floor_eq_iff.mpr
      constructor <;> norm_num
    have hfr : Int.fract (216/10 : ℚ) = 3/5 := by
      unfold Int.fract
      rw [hfl]
      norm_num
    unfold pyRound
    rw [hfr, hfl]
    norm_num

/-- C10: `_get_weather` never returns `None` (despite its `Optional`
annotation): every value it returns is `some` non-empty string, and
consequently every reply `_process_weather_message` returns carries a
non-empty `response` (the generic-apology fallback is unreachable). -/
theorem c10_nonempty_response (city : String) (geo wx : HttpOutcome) (data : Value) :
    (∀ r, getWeather city geo wx = .ok r → ∃ s, r = some s ∧ s ≠ "") ∧
    (∀ rep, processWeatherMessage data geo wx = .ok (some rep) → rep.response ≠ "") :=
  ⟨fun r hr => getWeather_ok_shape city geo wx r hr,
   fun rep hrep => processWeatherMessage_ok data geo wx (some rep) hrep rep rfl⟩

/-- C10 witness: the theorem applied to a concrete failed-geocode call
(returning the fixed not-found string) and to a concrete prompt
reply. -/
theorem c10_nonempty_response_witness :
    (∃ s, some (notFoundText "X") = some s ∧ s ≠ "") ∧
    (⟨true, pluginName, promptText⟩ : Reply).response ≠ "" :=
  ⟨(c10_nonempty_response "X" (.err .clientError) (.err .clientError)
      (.dict [("text", .str "天气")])).1 (some (notFoundText "X")) rfl,
   (c10_nonempty_response "X" (.err .clientError) (.err .clientError)
      (.dict [("text", .str "天气")])).2 ⟨true, pluginName, promptText⟩ rfl⟩
